import Mathlib

/-!
Verification of the swipeable-row list widget (react-native-swipe-list).

The embedding models the pan-responder `SwipeableRow` component as pure
functions over rational-valued gesture samples and an explicit row state.
Animations are modelled as a pending chain of (target, duration) steps:
starting an animation replaces the whole pending chain (last start wins),
a chained completion callback is the tail of the chain, and completing the
head step commits its target into `previousLeft` and `currentLeft`.
Callback notifications to the parent (onOpen / onClose / onSwipeStart /
onSwipeEnd) are returned as an event list.

The quick-actions `SwipeableFlatList` is modelled by its `openRowKey`
state and the three transitions that mutate it; the gesture-handler
variant row by its scroll-close effect over an optional mounted handle.
-/

namespace SwipeList

/-- Position of the left of the swipable item when closed. -/
def CLOSED_LEFT_POSITION : ℚ := 0

/-- Minimum swipe distance before we recognize it as such. -/
def HORIZONTAL_SWIPE_DISTANCE_THRESHOLD : ℚ := 10

/-- Minimum swipe speed (0.3) before we fully animate the action
(open/close); written `mkRat` so that concrete states evaluate. -/
def HORIZONTAL_FULL_SWIPE_SPEED_THRESHOLD : ℚ := mkRat 3 10

/-- Factor to divide by to get slow speed; 4 means 1/4 of full speed. -/
def SLOW_SPEED_SWIPE_FACTOR : ℚ := 4

/-- Time, in milliseconds, of how long the animated swipe should be. -/
def SWIPE_DURATION : ℚ := 300

/-- Distance left of closed position to bounce back when right-swiping from closed. -/
def RIGHT_SWIPE_BOUNCE_BACK_DISTANCE : ℚ := 30

/-- Duration of the bounce-back animation. -/
def RIGHT_SWIPE_BOUNCE_BACK_DURATION : ℚ := 300

/-- Max distance of right swipe to allow, in raw finger units
(bounce distance times the slow-speed factor). -/
def RIGHT_SWIPE_THRESHOLD : ℚ := 30 * SLOW_SPEED_SWIPE_FACTOR

/-- One sample of the gesture recognizer: cumulative displacement since
gesture start and instantaneous horizontal velocity. -/
structure GestureState where
  dx : ℚ
  dy : ℚ
  vx : ℚ
deriving Repr, DecidableEq

/-- The configuration of one row: the module-scope layout-direction flag
`I18nManager.isRTL` plus the props the gesture logic reads. -/
structure RowConfig where
  isRTL : Bool
  maxSwipeDistance : ℚ
  preventSwipeRight : Bool
  swipeThreshold : ℚ
deriving Repr, DecidableEq

/-- The default prop values of the pan-responder row:
`maxSwipeDistance = 0`, `preventSwipeRight = false`, `swipeThreshold = 30`. -/
def mkRowConfig (isRTL : Bool) : RowConfig :=
  { isRTL := isRTL, maxSwipeDistance := 0, preventSwipeRight := false,
    swipeThreshold := 30 }

/-- Parent notifications emitted by the row's gesture handlers. -/
inductive RowEvent where
  | onOpen
  | onClose
  | onSwipeStart
  | onSwipeEnd
deriving Repr, DecidableEq, BEq

/-- One queued animation step: target value and duration. -/
abbrev AnimStep := ℚ × ℚ

/-- Runtime state of one row: the last settled offset `previousLeft`
(a mutable ref in the source), the live animated value `currentLeft`,
and the chain of in-flight animation steps (head is the active
`Animated.timing`; the tail is what its completion callback starts). -/
structure RowState where
  previousLeft : ℚ
  currentLeft : ℚ
  pending : List AnimStep
deriving Repr, DecidableEq

/-- Source `_animateTo(toValue, duration, callback)`: starts a timing animation on
`currentLeft`, superseding any in-flight animation; `chained` is the list of
animation steps the completion callback will start in turn. `previousLeft`
is not touched at start time. -/
def _animateTo (s : RowState) (toValue : ℚ) (duration : ℚ)
    (chained : List AnimStep) : RowState :=
  { s with pending := (toValue, duration) :: chained }

/-- Completion of the active animation step: the source's
`.start(() => { _previousLeft.current = toValue; callback(); })` — the
target is committed into `previousLeft` (and `currentLeft` has animated to
it), then the callback's chained step becomes active. -/
def completeStep (s : RowState) : RowState :=
  match s.pending with
  | [] => s
  | (t, _) :: rest => { previousLeft := t, currentLeft := t, pending := rest }

/-- Run a pending chain to completion (helper for `settle`). -/
def runPending (pl cl : ℚ) : List AnimStep → RowState
  | [] => { previousLeft := pl, currentLeft := cl, pending := [] }
  | (t, _) :: rest => runPending t t rest

/-- The state after every pending animation step has completed undisturbed. -/
def settle (s : RowState) : RowState :=
  runPending s.previousLeft s.currentLeft s.pending

/-- Source `_animateToOpenPositionWith(speed, distMoved)`: clamp the speed to at
least the full-swipe-speed threshold, compute the remaining-distance
duration, and animate to the direction-corrected fully open offset. -/
def _animateToOpenPositionWith (cfg : RowConfig) (s : RowState)
    (speed distMoved : ℚ) : RowState :=
  let speed2 :=
    if speed > HORIZONTAL_FULL_SWIPE_SPEED_THRESHOLD then speed
    else HORIZONTAL_FULL_SWIPE_SPEED_THRESHOLD
  let duration := |(cfg.maxSwipeDistance - |distMoved|) / speed2|
  let distance := if cfg.isRTL then -cfg.maxSwipeDistance else cfg.maxSwipeDistance
  _animateTo s (-distance) duration []

/-- Source `_shouldAnimateRemainder`: swiped past the threshold distance, or let go
faster than the full-swipe speed threshold. -/
def _shouldAnimateRemainder (cfg : RowConfig) (gs : GestureState) : Bool :=
  decide (|gs.dx| > cfg.swipeThreshold) ||
    decide (gs.vx > HORIZONTAL_FULL_SWIPE_SPEED_THRESHOLD)

/-- Source `_animateToClosedPosition(duration)`. -/
def _animateToClosedPosition (s : RowState) (duration : ℚ) : RowState :=
  _animateTo s CLOSED_LEFT_POSITION duration []

/-- Source `_swipeFullSpeed`: track the finger 1:1 on the live animated value. -/
def _swipeFullSpeed (s : RowState) (gs : GestureState) : RowState :=
  { s with currentLeft := s.previousLeft + gs.dx }

/-- Source `_swipeSlowSpeed`: track the finger at 1/4 scale on the live animated value. -/
def _swipeSlowSpeed (s : RowState) (gs : GestureState) : RowState :=
  { s with currentLeft := s.previousLeft + gs.dx / SLOW_SPEED_SWIPE_FACTOR }

/-- Source `_isSwipingRightFromClosed`: the row is at the closed position and the
direction-corrected displacement is rightward. -/
def _isSwipingRightFromClosed (cfg : RowConfig) (s : RowState)
    (gs : GestureState) : Bool :=
  let gestureStateDx := if cfg.isRTL then -gs.dx else gs.dx
  decide (s.previousLeft = CLOSED_LEFT_POSITION) && decide (gestureStateDx > 0)

/-- Source `_isSwipingExcessivelyRightFromClosedPosition`: a rightward swipe from
closed whose direction-corrected displacement exceeds the right-swipe cap. -/
def _isSwipingExcessivelyRightFromClosedPosition (cfg : RowConfig)
    (s : RowState) (gs : GestureState) : Bool :=
  let gestureStateDx := if cfg.isRTL then -gs.dx else gs.dx
  _isSwipingRightFromClosed cfg s gs && decide (gestureStateDx > RIGHT_SWIPE_THRESHOLD)

/-- Source `_handlePanResponderMove`: suppress excessive right-swipes entirely;
otherwise notify swipe-start and track at slow or full speed. -/
def _handlePanResponderMove (cfg : RowConfig) (s : RowState)
    (gs : GestureState) : RowState × List RowEvent :=
  if _isSwipingExcessivelyRightFromClosedPosition cfg s gs then (s, [])
  else
    ((if _isSwipingRightFromClosed cfg s gs then _swipeSlowSpeed s gs
      else _swipeFullSpeed s gs),
     [RowEvent.onSwipeStart])

/-- Source `_isValidSwipe`: ignore taps; under `preventSwipeRight` a rightward
displacement from closed is never a valid swipe. -/
def _isValidSwipe (cfg : RowConfig) (s : RowState) (gs : GestureState) : Bool :=
  if cfg.preventSwipeRight = true ∧ s.previousLeft = CLOSED_LEFT_POSITION ∧ gs.dx > 0
  then false
  else decide (|gs.dx| > HORIZONTAL_SWIPE_DISTANCE_THRESHOLD)

/-- Source `_handleMoveShouldSetPanResponderCapture`: decides whether a swipe is
responded to by this component or its scrollable ancestor. -/
def _handleMoveShouldSetPanResponderCapture (cfg : RowConfig) (s : RowState)
    (gs : GestureState) : Bool :=
  decide (gs.dy < 10) && _isValidSwipe cfg s gs

/-- Source `_animateBounceBack(duration)`: overshoot past closed by the
direction-corrected bounce distance, then (as the completion callback,
`_animateToClosedPositionDuringBounce`) settle back to the closed
position over the bounce-back duration. -/
def _animateBounceBack (cfg : RowConfig) (s : RowState) (duration : ℚ) : RowState :=
  let swipeBounceBackDistance :=
    if cfg.isRTL then -RIGHT_SWIPE_BOUNCE_BACK_DISTANCE
    else RIGHT_SWIPE_BOUNCE_BACK_DISTANCE
  _animateTo s (-swipeBounceBackDistance) duration
    [(CLOSED_LEFT_POSITION, RIGHT_SWIPE_BOUNCE_BACK_DURATION)]

/-- Source `_animateToOpenPosition`: animate to the direction-corrected fully open
offset over the standard duration. -/
def _animateToOpenPosition (cfg : RowConfig) (s : RowState) : RowState :=
  let distance := if cfg.isRTL then -cfg.maxSwipeDistance else cfg.maxSwipeDistance
  _animateTo s (-distance) SWIPE_DURATION []

/-- Source `_handlePanResponderEnd`: the release/termination decision tree, ending
with the unconditional `onSwipeEnd()` notification. -/
def _handlePanResponderEnd (cfg : RowConfig) (s : RowState)
    (gs : GestureState) : RowState × List RowEvent :=
  let horizontalDistance := if cfg.isRTL then -gs.dx else gs.dx
  if _isSwipingRightFromClosed cfg s gs then
    (_animateBounceBack cfg s RIGHT_SWIPE_BOUNCE_BACK_DURATION,
     [RowEvent.onOpen, RowEvent.onSwipeEnd])
  else if _shouldAnimateRemainder cfg gs then
    if horizontalDistance < 0 then
      (_animateToOpenPositionWith cfg s gs.vx horizontalDistance,
       [RowEvent.onOpen, RowEvent.onSwipeEnd])
    else
      (_animateToClosedPosition s SWIPE_DURATION,
       [RowEvent.onClose, RowEvent.onSwipeEnd])
  else if s.previousLeft = CLOSED_LEFT_POSITION then
    (_animateToClosedPosition s SWIPE_DURATION, [RowEvent.onSwipeEnd])
  else
    (_animateToOpenPosition cfg s, [RowEvent.onSwipeEnd])

end SwipeList

namespace QuickList

/-- State of the quick-actions `SwipeableFlatList`: the key of the
currently open row, or `none`. -/
structure ListState (κ : Type) where
  openRowKey : Option κ
deriving Repr, DecidableEq

/-- Source `_onOpen(key)`: `setOpenRowKey(key)`. -/
def _onOpen {κ : Type} (key : κ) (_s : ListState κ) : ListState κ :=
  { openRowKey := some key }

/-- Source `_onClose(_key)`: `setOpenRowKey(null)` unconditionally, for every key. -/
def _onClose {κ : Type} (_key : κ) (_s : ListState κ) : ListState κ :=
  { openRowKey := none }

/-- Source `_onScroll`: close any open row on list scroll. -/
def _onScroll {κ : Type} (s : ListState κ) : ListState κ :=
  match s.openRowKey with
  | none => s
  | some _ => { openRowKey := none }

/-- The `isOpen` prop supplied to the row with key `key`:
`key === openRowKey`. -/
def rowIsOpen {κ : Type} [DecidableEq κ] (key : κ) (s : ListState κ) : Bool :=
  decide (some key = s.openRowKey)

end QuickList

namespace GHRow

/-- A command issued to the mounted third-party `Swipeable` handle. -/
inductive HandleCmd where
  | closeCmd
deriving Repr, DecidableEq

/-- Source `close()`: a silent no-op when the handle is not mounted
(`rowRef.current` null), otherwise `rowRef.current.close()`. -/
def close (rowRef : Option Unit) : List HandleCmd :=
  match rowRef with
  | none => []
  | some _ => [HandleCmd.closeCmd]

/-- The row's effect: when the list is being scrolled and `closeOnScroll`
is set, call this row's own `close()`. -/
def scrollCloseEffect (isScrolling closeOnScroll : Bool)
    (rowRef : Option Unit) : List HandleCmd :=
  if isScrolling && closeOnScroll then close rowRef else []

end GHRow

namespace SwipeList

/-- Concrete configuration for the C7 counterexample: left-to-right layout,
`maxSwipeDistance = 50`, defaults otherwise. -/
def c7cfg : RowConfig :=
  { isRTL := false, maxSwipeDistance := 50, preventSwipeRight := false,
    swipeThreshold := 30 }

/-- Concrete row state for the C7 counterexample: closed and idle. -/
def c7s : RowState := { previousLeft := 0, currentLeft := 0, pending := [] }

/-- Concrete gesture for the C7 counterexample: a small rightward
displacement released without speed. -/
def c7gs : GestureState := { dx := 5, dy := 0, vx := 0 }

end SwipeList

namespace SwipeList

theorem capture_iff (cfg : RowConfig) (s : RowState) (gs : GestureState) :
    _handleMoveShouldSetPanResponderCapture cfg s gs = true ↔
      (gs.dy < 10 ∧ |gs.dx| > 10 ∧
        ¬(cfg.preventSwipeRight = true ∧ s.previousLeft = 0 ∧ gs.dx > 0)) := by
  unfold _handleMoveShouldSetPanResponderCapture _isValidSwipe
    HORIZONTAL_SWIPE_DISTANCE_THRESHOLD CLOSED_LEFT_POSITION
  split_ifs with h
  · simp [h]
  · simp [h]

theorem speed_threshold_eq : HORIZONTAL_FULL_SWIPE_SPEED_THRESHOLD = 3/10 := by
  unfold HORIZONTAL_FULL_SWIPE_SPEED_THRESHOLD
  rw [Rat.mkRat_eq_div]
  norm_num

theorem shouldAnimate_iff (cfg : RowConfig) (gs : GestureState) :
    _shouldAnimateRemainder cfg gs = true ↔
      (|gs.dx| > cfg.swipeThreshold ∨ gs.vx > 3/10) := by
  unfold _shouldAnimateRemainder
  rw [speed_threshold_eq]
  simp

end SwipeList

open SwipeList QuickList GHRow

/-- Claim C1: in the quick-actions list, `onOpen(key)` sets `openRowKey := key`,
`onClose(key)` clears it for every key, any scroll clears it, and since each
row's `isOpen` is `key === openRowKey`, at most one row is open at a time. -/
theorem claim_C1 {κ : Type} [DecidableEq κ] (k k1 k2 : κ) (s : ListState κ)
    (h1 : rowIsOpen k1 s = true) (h2 : rowIsOpen k2 s = true) :
    _onOpen k s = { openRowKey := some k } ∧
    _onClose k s = { openRowKey := none } ∧
    _onScroll s = { openRowKey := none } ∧
    k1 = k2 := by
  refine ⟨rfl, rfl, ?_, ?_⟩
  · unfold _onScroll
    rcases s with ⟨key⟩
    cases key <;> rfl
  · unfold rowIsOpen at h1 h2
    rw [decide_eq_true_iff] at h1 h2
    exact Option.some.inj (h1.trans h2.symm)

theorem claim_C1_witness :
    rowIsOpen 2 ({ openRowKey := some 2 } : ListState ℕ) = true ∧
    (_onOpen 1 ({ openRowKey := some 2 } : ListState ℕ) = { openRowKey := some 1 } ∧
     _onClose 1 ({ openRowKey := some 2 } : ListState ℕ) = { openRowKey := none } ∧
     _onScroll ({ openRowKey := some 2 } : ListState ℕ) = { openRowKey := none } ∧
     (2 : ℕ) = 2) :=
  ⟨by decide, claim_C1 1 2 2 { openRowKey := some 2 } (by decide) (by decide)⟩

/-- Claim C2: the row captures the gesture iff `dy < 10`, `|dx| > 10`, and it
is not the case that `preventSwipeRight` holds with the row closed and a
rightward displacement. -/
theorem claim_C2 (cfg : RowConfig) (s : RowState) (gs : GestureState) :
    _handleMoveShouldSetPanResponderCapture cfg s gs = true ↔
      (gs.dy < 10 ∧ |gs.dx| > 10 ∧
        ¬(cfg.preventSwipeRight = true ∧ s.previousLeft = 0 ∧ gs.dx > 0)) :=
  capture_iff cfg s gs

/-- Claim C9: in the left/right-actions variant, when `isScrolling` and
`closeOnScroll` are both true the row invokes its own `close()`, and
`close()` is a silent no-op when the handle is not mounted. -/
theorem claim_C9 (isScrolling closeOnScroll : Bool) (rowRef : Option Unit)
    (h1 : isScrolling = true) (h2 : closeOnScroll = true) :
    scrollCloseEffect isScrolling closeOnScroll rowRef = GHRow.close rowRef ∧
    GHRow.close none = [] := by
  subst h1; subst h2
  exact ⟨rfl, rfl⟩

theorem claim_C9_witness :
    (true = true ∧ true = true) ∧
    (scrollCloseEffect true true (none : Option Unit) = GHRow.close none ∧
      GHRow.close (none : Option Unit) = []) :=
  ⟨⟨rfl, rfl⟩, claim_C9 true true none rfl rfl⟩

/-- Claim C10: the capture check compares signed `dy`, so a gesture with
arbitrarily large upward displacement (`dy ≤ -10`) and `|dx| > 10` still
claims the gesture, absent the `preventSwipeRight` exclusion. -/
theorem claim_C10 (cfg : RowConfig) (s : RowState) (gs : GestureState)
    (h1 : gs.dy ≤ -10) (h2 : |gs.dx| > 10)
    (h3 : ¬(cfg.preventSwipeRight = true ∧ s.previousLeft = 0 ∧ gs.dx > 0)) :
    _handleMoveShouldSetPanResponderCapture cfg s gs = true := by
  rw [capture_iff]
  exact ⟨by linarith, h2, h3⟩

theorem claim_C10_witness :
    (((⟨20, -1000, 0⟩ : GestureState).dy ≤ -10) ∧
      |(⟨20, -1000, 0⟩ : GestureState).dx| > 10 ∧
      ¬((⟨false, 50, false, 30⟩ : RowConfig).preventSwipeRight = true ∧
        (⟨0, 0, []⟩ : RowState).previousLeft = 0 ∧
        (⟨20, -1000, 0⟩ : GestureState).dx > 0)) ∧
    _handleMoveShouldSetPanResponderCapture ⟨false, 50, false, 30⟩ ⟨0, 0, []⟩
      ⟨20, -1000, 0⟩ = true :=
  ⟨⟨by decide, by decide, by decide⟩,
   claim_C10 ⟨false, 50, false, 30⟩ ⟨0, 0, []⟩ ⟨20, -1000, 0⟩
     (by decide) (by decide) (by decide)⟩

/-- Claim C3: a release that is not a rightward-swipe-from-closed is treated
as committed (it notifies open/close and animates fully, rather than only
`onSwipeEnd` with a snap-back) iff `|dx| > swipeThreshold` or `vx > 0.3`;
the default `swipeThreshold` is 30. -/
theorem claim_C3 (cfg : RowConfig) (s : RowState) (gs : GestureState)
    (h : _isSwipingRightFromClosed cfg s gs = false) :
    (((_handlePanResponderEnd cfg s gs).2 ≠ [RowEvent.onSwipeEnd]) ↔
      (|gs.dx| > cfg.swipeThreshold ∨ gs.vx > 3/10)) ∧
    (mkRowConfig cfg.isRTL).swipeThreshold = 30 := by
  refine ⟨?_, rfl⟩
  rw [← shouldAnimate_iff]
  unfold _handlePanResponderEnd
  cases hsa : _shouldAnimateRemainder cfg gs <;> simp [h, hsa] <;> split_ifs <;> simp

theorem claim_C3_witness :
    (_isSwipingRightFromClosed ⟨false, 50, false, 30⟩ ⟨-50, -50, []⟩
        ⟨-40, 0, 0⟩ = false) ∧
    ((((_handlePanResponderEnd ⟨false, 50, false, 30⟩ ⟨-50, -50, []⟩
          ⟨-40, 0, 0⟩).2 ≠ [RowEvent.onSwipeEnd]) ↔
        (|(⟨-40, 0, 0⟩ : GestureState).dx| >
            (⟨false, 50, false, 30⟩ : RowConfig).swipeThreshold ∨
          (⟨-40, 0, 0⟩ : GestureState).vx > 3/10)) ∧
      (mkRowConfig false).swipeThreshold = 30) :=
  ⟨by decide, claim_C3 ⟨false, 50, false, 30⟩ ⟨-50, -50, []⟩ ⟨-40, 0, 0⟩ (by decide)⟩

/-- Claim C4: a committed release with direction-corrected leftward movement
notifies `onOpen` exactly once and starts a single animation to the
direction-corrected fully open offset, with duration
`|maxSwipeDistance - |distMoved|| / max vx 0.3`; undisturbed, the row
settles at that offset. -/
theorem claim_C4 (cfg : RowConfig) (s : RowState) (gs : GestureState)
    (h1 : _isSwipingRightFromClosed cfg s gs = false)
    (h2 : _shouldAnimateRemainder cfg gs = true)
    (h3 : (if cfg.isRTL then -gs.dx else gs.dx) < 0) :
    ((_handlePanResponderEnd cfg s gs).2).count RowEvent.onOpen = 1 ∧
    (_handlePanResponderEnd cfg s gs).1.pending =
      [((if cfg.isRTL then cfg.maxSwipeDistance else -cfg.maxSwipeDistance),
        abs (cfg.maxSwipeDistance -
            |(if cfg.isRTL then -gs.dx else gs.dx)|) / max gs.vx (3/10))] ∧
    (settle (_handlePanResponderEnd cfg s gs).1).previousLeft =
      (if cfg.isRTL then cfg.maxSwipeDistance else -cfg.maxSwipeDistance) := by
  have hsp : (if gs.vx > HORIZONTAL_FULL_SWIPE_SPEED_THRESHOLD then gs.vx
      else HORIZONTAL_FULL_SWIPE_SPEED_THRESHOLD) = max gs.vx (3/10) := by
    rw [speed_threshold_eq]
    split_ifs with hv
    · exact (max_eq_left hv.le).symm
    · push_neg at hv
      exact (max_eq_right hv).symm
  have hpos : (0 : ℚ) < max gs.vx (3/10) :=
    lt_max_iff.mpr (Or.inr (by norm_num))
  have hend : _handlePanResponderEnd cfg s gs =
      (_animateToOpenPositionWith cfg s gs.vx (if cfg.isRTL then -gs.dx else gs.dx),
       [RowEvent.onOpen, RowEvent.onSwipeEnd]) := by
    unfold _handlePanResponderEnd
    simp [h1, h2, h3]
  rw [hend]
  unfold _animateToOpenPositionWith _animateTo
  rw [hsp]
  simp only [abs_div, abs_of_pos hpos]
  refine ⟨rfl, ?_, ?_⟩
  · cases hr : cfg.isRTL <;> simp [hr]
  · unfold settle
    cases hr : cfg.isRTL <;> simp [hr, runPending]

theorem claim_C4_witness :
    (_isSwipingRightFromClosed ⟨false, 50, false, 30⟩ ⟨0, 0, []⟩
        ⟨-40, 0, 1⟩ = false ∧
      _shouldAnimateRemainder ⟨false, 50, false, 30⟩ ⟨-40, 0, 1⟩ = true ∧
      (if (⟨false, 50, false, 30⟩ : RowConfig).isRTL then
          -(⟨-40, 0, 1⟩ : GestureState).dx
        else (⟨-40, 0, 1⟩ : GestureState).dx) < 0) ∧
    (((_handlePanResponderEnd ⟨false, 50, false, 30⟩ ⟨0, 0, []⟩
         ⟨-40, 0, 1⟩).2).count RowEvent.onOpen = 1 ∧
      (_handlePanResponderEnd ⟨false, 50, false, 30⟩ ⟨0, 0, []⟩
         ⟨-40, 0, 1⟩).1.pending =
        [((if (⟨false, 50, false, 30⟩ : RowConfig).isRTL then
              (⟨false, 50, false, 30⟩ : RowConfig).maxSwipeDistance
            else -(⟨false, 50, false, 30⟩ : RowConfig).maxSwipeDistance),
          abs ((⟨false, 50, false, 30⟩ : RowConfig).maxSwipeDistance -
              |(if (⟨false, 50, false, 30⟩ : RowConfig).isRTL then
                  -(⟨-40, 0, 1⟩ : GestureState).dx
                else (⟨-40, 0, 1⟩ : GestureState).dx)|) /
            max (⟨-40, 0, 1⟩ : GestureState).vx (3/10))] ∧
      (settle (_handlePanResponderEnd ⟨false, 50, false, 30⟩ ⟨0, 0, []⟩
          ⟨-40, 0, 1⟩).1).previousLeft =
        (if (⟨false, 50, false, 30⟩ : RowConfig).isRTL then
            (⟨false, 50, false, 30⟩ : RowConfig).maxSwipeDistance
          else -(⟨false, 50, false, 30⟩ : RowConfig).maxSwipeDistance)) :=
  ⟨⟨by decide, by decide, by decide⟩,
   claim_C4 ⟨false, 50, false, 30⟩ ⟨0, 0, []⟩ ⟨-40, 0, 1⟩
     (by decide) (by decide) (by decide)⟩

/-- Claim C5: releasing a rightward swipe from closed notifies `onOpen` (and
`onSwipeEnd`) even though the row does not end up open: it starts a 300ms
overshoot of 30 direction-corrected units past closed, whose completion
chains a second 300ms animation that settles the row back at offset 0. -/
theorem claim_C5 (cfg : RowConfig) (s : RowState) (gs : GestureState)
    (h : _isSwipingRightFromClosed cfg s gs = true) :
    (_handlePanResponderEnd cfg s gs).2 = [RowEvent.onOpen, RowEvent.onSwipeEnd] ∧
    (_handlePanResponderEnd cfg s gs).1.pending =
      [((if cfg.isRTL then (30 : ℚ) else -30), 300), (0, 300)] ∧
    completeStep (_handlePanResponderEnd cfg s gs).1 =
      { previousLeft := (if cfg.isRTL then (30 : ℚ) else -30),
        currentLeft := (if cfg.isRTL then (30 : ℚ) else -30),
        pending := [(0, 300)] } ∧
    (settle (_handlePanResponderEnd cfg s gs).1).previousLeft = 0 ∧
    (settle (_handlePanResponderEnd cfg s gs).1).currentLeft = 0 := by
  have hend : _handlePanResponderEnd cfg s gs =
      (_animateBounceBack cfg s RIGHT_SWIPE_BOUNCE_BACK_DURATION,
       [RowEvent.onOpen, RowEvent.onSwipeEnd]) := by
    unfold _handlePanResponderEnd
    simp [h]
  rw [hend]
  unfold _animateBounceBack _animateTo RIGHT_SWIPE_BOUNCE_BACK_DISTANCE
    RIGHT_SWIPE_BOUNCE_BACK_DURATION CLOSED_LEFT_POSITION
  cases hr : cfg.isRTL <;>
    simp [hr, completeStep, settle, runPending]

theorem claim_C5_witness :
    (_isSwipingRightFromClosed ⟨false, 50, false, 30⟩ ⟨0, 0, []⟩
        ⟨20, 0, 0⟩ = true) ∧
    ((_handlePanResponderEnd ⟨false, 50, false, 30⟩ ⟨0, 0, []⟩ ⟨20, 0, 0⟩).2 =
        [RowEvent.onOpen, RowEvent.onSwipeEnd] ∧
      (_handlePanResponderEnd ⟨false, 50, false, 30⟩ ⟨0, 0, []⟩
          ⟨20, 0, 0⟩).1.pending =
        [((if (⟨false, 50, false, 30⟩ : RowConfig).isRTL then (30 : ℚ) else -30),
          300), (0, 300)] ∧
      completeStep (_handlePanResponderEnd ⟨false, 50, false, 30⟩ ⟨0, 0, []⟩
          ⟨20, 0, 0⟩).1 =
        { previousLeft :=
            (if (⟨false, 50, false, 30⟩ : RowConfig).isRTL then (30 : ℚ) else -30),
          currentLeft :=
            (if (⟨false, 50, false, 30⟩ : RowConfig).isRTL then (30 : ℚ) else -30),
          pending := [(0, 300)] } ∧
      (settle (_handlePanResponderEnd ⟨false, 50, false, 30⟩ ⟨0, 0, []⟩
          ⟨20, 0, 0⟩).1).previousLeft = 0 ∧
      (settle (_handlePanResponderEnd ⟨false, 50, false, 30⟩ ⟨0, 0, []⟩
          ⟨20, 0, 0⟩).1).currentLeft = 0) :=
  ⟨by decide, claim_C5 ⟨false, 50, false, 30⟩ ⟨0, 0, []⟩ ⟨20, 0, 0⟩ (by decide)⟩

/-- Claim C6: the move handler equals the spec-shaped case split — closed
with direction-corrected rightward displacement tracks at `previousLeft +
dx/4` (suppressed entirely beyond 120 raw units), every other move tracks
at `previousLeft + dx`, and every non-suppressed move emits the swipe-start
notification (there is no first-move flag in the state). -/
theorem claim_C6 (cfg : RowConfig) (s : RowState) (gs : GestureState) :
    _handlePanResponderMove cfg s gs =
      (if s.previousLeft = 0 ∧ (if cfg.isRTL then -gs.dx else gs.dx) > 0 then
        (if (if cfg.isRTL then -gs.dx else gs.dx) > 120 then (s, [])
         else ({ s with currentLeft := s.previousLeft + gs.dx / 4 },
               [RowEvent.onSwipeStart]))
       else ({ s with currentLeft := s.previousLeft + gs.dx },
             [RowEvent.onSwipeStart])) := by
  unfold _handlePanResponderMove _isSwipingExcessivelyRightFromClosedPosition
    _isSwipingRightFromClosed _swipeSlowSpeed _swipeFullSpeed
    CLOSED_LEFT_POSITION RIGHT_SWIPE_THRESHOLD SLOW_SPEED_SWIPE_FACTOR
  split_ifs <;> simp_all <;> linarith

/-- Claim C8: `previousLeft` is mutated only by an animation-completion
(where it becomes that animation's target); per-move tracking touches only
`currentLeft`, and starting any animation — including the whole release
handler — leaves `previousLeft` unchanged, so a superseded animation never
updates it. -/
theorem claim_C8 :
    (∀ s gs, (_swipeFullSpeed s gs).previousLeft = s.previousLeft ∧
      (_swipeFullSpeed s gs).pending = s.pending) ∧
    (∀ s gs, (_swipeSlowSpeed s gs).previousLeft = s.previousLeft ∧
      (_swipeSlowSpeed s gs).pending = s.pending) ∧
    (∀ cfg s gs,
      ((_handlePanResponderMove cfg s gs).1).previousLeft = s.previousLeft) ∧
    (∀ cfg s gs,
      ((_handlePanResponderEnd cfg s gs).1).previousLeft = s.previousLeft) ∧
    (∀ s t d c, (_animateTo s t d c).previousLeft = s.previousLeft) ∧
    (∀ pl cl t d rest,
      completeStep { previousLeft := pl, currentLeft := cl,
                     pending := (t, d) :: rest } =
        { previousLeft := t, currentLeft := t, pending := rest }) := by
  refine ⟨fun s gs => ⟨rfl, rfl⟩, fun s gs => ⟨rfl, rfl⟩, ?_, ?_,
    fun s t d c => rfl, fun pl cl t d rest => rfl⟩
  · intro cfg s gs
    unfold _handlePanResponderMove _swipeSlowSpeed _swipeFullSpeed
    split_ifs <;> rfl
  · intro cfg s gs
    unfold _handlePanResponderEnd _animateBounceBack _animateToOpenPositionWith
      _animateToClosedPosition _animateToOpenPosition _animateTo
    dsimp only
    split_ifs <;> rfl

theorem notCommitted (cfg : RowConfig) (gs : GestureState)
    (h1 : |gs.dx| ≤ cfg.swipeThreshold) (h2 : gs.vx ≤ 3/10) :
    _shouldAnimateRemainder cfg gs = false := by
  unfold _shouldAnimateRemainder
  rw [speed_threshold_eq]
  simp
  exact ⟨h1, h2⟩

theorem snapBack_end (cfg : RowConfig) (s : RowState) (gs : GestureState)
    (h0 : _isSwipingRightFromClosed cfg s gs = false)
    (hsa : _shouldAnimateRemainder cfg gs = false) :
    _handlePanResponderEnd cfg s gs =
      ({ s with pending :=
          [((if s.previousLeft = 0 then 0
             else (if cfg.isRTL then cfg.maxSwipeDistance
                   else -cfg.maxSwipeDistance)),
            300)] },
       [RowEvent.onSwipeEnd]) := by
  unfold _handlePanResponderEnd _animateToClosedPosition _animateToOpenPosition
    _animateTo CLOSED_LEFT_POSITION SWIPE_DURATION
  simp only [h0, hsa, Bool.false_eq_true, if_false]
  by_cases hp : s.previousLeft = 0
  · simp [hp]
  · simp [hp]
    cases hr : cfg.isRTL <;> simp [hr]

/-- Claim C7 counterexample: a non-committed release (`|dx| ≤ swipeThreshold`,
`vx ≤ 0.3`) from the closed position with a small rightward displacement does
not start a single 300ms animation to 0 — it takes the bounce path and fires
`onOpen` — refuting the claim as stated. -/
theorem claim_C7_counterexample :
    (|c7gs.dx| ≤ c7cfg.swipeThreshold ∧ c7gs.vx ≤ 3/10 ∧
      c7s.previousLeft = 0) ∧
    (_handlePanResponderEnd c7cfg c7s c7gs).1.pending ≠ [((0 : ℚ), 300)] ∧
    (_handlePanResponderEnd c7cfg c7s c7gs).2 ≠ [RowEvent.onSwipeEnd] :=
  ⟨⟨by decide, by norm_num [c7gs], by decide⟩, by decide, by decide⟩

/-- Claim C7 (amended): on a non-committed release that is not a rightward
swipe from closed, the row animates over 300ms to 0 when `previousLeft` was
0 and to the open offset otherwise, without notifying open or close; and
repeating the gesture from the settled end state (when still not a
rightward swipe from closed there) settles to the same end state. -/
theorem claim_C7 (cfg : RowConfig) (s : RowState) (gs : GestureState)
    (h0 : _isSwipingRightFromClosed cfg s gs = false)
    (h1 : |gs.dx| ≤ cfg.swipeThreshold) (h2 : gs.vx ≤ 3/10)
    (h3 : _isSwipingRightFromClosed cfg
            (settle (_handlePanResponderEnd cfg s gs).1) gs = false) :
    (_handlePanResponderEnd cfg s gs).2 = [RowEvent.onSwipeEnd] ∧
    (_handlePanResponderEnd cfg s gs).1.pending =
      [((if s.previousLeft = 0 then 0
         else (if cfg.isRTL then cfg.maxSwipeDistance
               else -cfg.maxSwipeDistance)),
        300)] ∧
    settle (_handlePanResponderEnd cfg
             (settle (_handlePanResponderEnd cfg s gs).1) gs).1 =
      settle (_handlePanResponderEnd cfg s gs).1 := by
  have hsa := notCommitted cfg gs h1 h2
  have he1 := snapBack_end cfg s gs h0 hsa
  have hs1 : settle (_handlePanResponderEnd cfg s gs).1 =
      { previousLeft :=
          (if s.previousLeft = 0 then 0
           else (if cfg.isRTL then cfg.maxSwipeDistance
                 else -cfg.maxSwipeDistance)),
        currentLeft :=
          (if s.previousLeft = 0 then 0
           else (if cfg.isRTL then cfg.maxSwipeDistance
                 else -cfg.maxSwipeDistance)),
        pending := [] } := by
    rw [he1]
    simp [settle, runPending]
  have he2 := snapBack_end cfg (settle (_handlePanResponderEnd cfg s gs).1)
    gs h3 hsa
  refine ⟨by rw [he1], by rw [he1], ?_⟩
  rw [he2, hs1]
  by_cases hp : s.previousLeft = 0
  · simp [hp, settle, runPending]
  · by_cases hq : (if cfg.isRTL then cfg.maxSwipeDistance
        else -cfg.maxSwipeDistance) = 0
    · simp [hp, hq, settle, runPending]
    · simp [hp, hq, settle, runPending]

theorem claim_C7_witness :
    (_isSwipingRightFromClosed ⟨false, 50, false, 30⟩ ⟨0, 0, []⟩
        ⟨-5, 0, 0⟩ = false ∧
      |(⟨-5, 0, 0⟩ : GestureState).dx| ≤
        (⟨false, 50, false, 30⟩ : RowConfig).swipeThreshold ∧
      (⟨-5, 0, 0⟩ : GestureState).vx ≤ 3/10 ∧
      _isSwipingRightFromClosed ⟨false, 50, false, 30⟩
        (settle (_handlePanResponderEnd ⟨false, 50, false, 30⟩ ⟨0, 0, []⟩
          ⟨-5, 0, 0⟩).1) ⟨-5, 0, 0⟩ = false) ∧
    ((_handlePanResponderEnd ⟨false, 50, false, 30⟩ ⟨0, 0, []⟩ ⟨-5, 0, 0⟩).2 =
        [RowEvent.onSwipeEnd] ∧
      (_handlePanResponderEnd ⟨false, 50, false, 30⟩ ⟨0, 0, []⟩
          ⟨-5, 0, 0⟩).1.pending =
        [((if (⟨0, 0, []⟩ : RowState).previousLeft = 0 then 0
           else (if (⟨false, 50, false, 30⟩ : RowConfig).isRTL then
                   (⟨false, 50, false, 30⟩ : RowConfig).maxSwipeDistance
                 else -(⟨false, 50, false, 30⟩ : RowConfig).maxSwipeDistance)),
          300)] ∧
      settle (_handlePanResponderEnd ⟨false, 50, false, 30⟩
               (settle (_handlePanResponderEnd ⟨false, 50, false, 30⟩
                 ⟨0, 0, []⟩ ⟨-5, 0, 0⟩).1) ⟨-5, 0, 0⟩).1 =
        settle (_handlePanResponderEnd ⟨false, 50, false, 30⟩ ⟨0, 0, []⟩
          ⟨-5, 0, 0⟩).1) :=
  ⟨⟨by decide, by decide, by norm_num, by decide⟩,
   claim_C7 ⟨false, 50, false, 30⟩ ⟨0, 0, []⟩ ⟨-5, 0, 0⟩
     (by decide) (by decide) (by norm_num) (by decide)⟩
